import Mathlib

/-!
Verification of the Share-The-Vows photo-upload backend.

The development shallowly embeds the storage layer (DatabaseService,
src/database.ts), the quota middleware (StorageMiddleware,
src/middleware/storage.ts), the image pipeline decisions (ImageService,
src/imageService.ts and its duplicate copy carrying the HEIC branch) and
the HTTP route handlers (PhotoRoutes, src/routes/photoRoutes.ts).

SQLite integers are modelled as unbounded Int (the repository stores file
sizes and dimensions well below 2^63); JavaScript float divisions by
1024^3 are modelled as exact rational division; fallible statements
(CHECK / UNIQUE constraint violations) are modelled with Except, the
failing call leaving the state unchanged exactly as a better-sqlite3
throw does.
-/

namespace ShareTheVows

/-- Photo record, one row of the photos table (interface Photo, database.ts). -/
structure Photo where
  id : Nat
  filename : String
  originalName : String
  guestName : Option String
  caption : Option String
  mimeType : String
  fileSize : Int
  width : Int
  height : Int
  uploadedAt : Nat
  ipAddress : Option String
deriving Repr, DecidableEq

/-- Insert payload: a Photo minus the store-assigned id and timestamp
(Omit Photo id uploadedAt in insertPhoto). -/
structure PhotoInput where
  filename : String
  originalName : String
  guestName : Option String
  caption : Option String
  mimeType : String
  fileSize : Int
  width : Int
  height : Int
  ipAddress : Option String
deriving Repr, DecidableEq

/-- State of the SQLite database: the photos table, the AUTOINCREMENT
counter, and the storage_stats singleton row (total_files,
total_size_bytes). -/
structure DBState where
  photos : List Photo
  nextId : Nat
  total_files : Int
  total_size_bytes : Int
deriving Repr, DecidableEq

/-- State created by initializeDatabase: empty photos table and the
storage_stats row seeded with (1, 0, 0). -/
def DBState.initial : DBState :=
  { photos := [], nextId := 1, total_files := 0, total_size_bytes := 0 }

/-- Result row of getStorageStats: totalSizeGB is
total_size_bytes / (1024*1024*1024), an exact rational standing in for
the JavaScript float division. -/
structure StorageStats where
  totalFiles : Int
  totalSizeBytes : Int
  totalSizeGB : ℚ
deriving Repr, DecidableEq

/-- DatabaseService.getStorageStats. -/
def getStorageStats (s : DBState) : StorageStats :=
  { totalFiles := s.total_files
    totalSizeBytes := s.total_size_bytes
    totalSizeGB := (s.total_size_bytes : ℚ) / (1024 * 1024 * 1024) }

/-- DatabaseService.updateStorageStats: UPDATE storage_stats SET
total_files = total_files + fileCount, total_size_bytes =
total_size_bytes + sizeBytes WHERE id = 1. -/
def updateStorageStats (s : DBState) (sizeBytes : Int) (fileCount : Int) : DBState :=
  { s with
    total_files := s.total_files + fileCount
    total_size_bytes := s.total_size_bytes + sizeBytes }

/-- DatabaseService.getPhotoById: SELECT ... FROM photos WHERE id = ?.
The route layer passes the parseInt result, hence an Int id; ids stored
in the table are the positive AUTOINCREMENT values. -/
def getPhotoById (s : DBState) (id : Int) : Option Photo :=
  s.photos.find? (fun p => (p.id : Int) == id)

/-- DatabaseService.getPhotoCount: SELECT COUNT(*) FROM photos. -/
def getPhotoCount (s : DBState) : Int :=
  (s.photos.length : Int)

/-- Errors surfaced by a failing INSERT (better-sqlite3 throws on a
violated CHECK or UNIQUE constraint declared in initializeDatabase). -/
inductive SqlError where
  | checkViolation : String → SqlError
  | uniqueViolation : String → SqlError
deriving Repr, DecidableEq

/-- DatabaseService.insertPhoto. The INSERT statement enforces
CHECK(file_size > 0), CHECK(width > 0), CHECK(height > 0) and
UNIQUE(filename); a violation throws before any row is written, so the
state comes back unchanged. On success the new row gets the
AUTOINCREMENT id, updateStorageStats(fileSize, 1) runs afterwards, and
the freshly inserted row is returned. The uploadedAt timestamp
(CURRENT_TIMESTAMP) is modelled by the monotone counter nextId. -/
def insertPhoto (s : DBState) (p : PhotoInput) : Except SqlError Photo × DBState :=
  if p.fileSize ≤ 0 then
    (Except.error (SqlError.checkViolation "file_size"), s)
  else if p.width ≤ 0 then
    (Except.error (SqlError.checkViolation "width"), s)
  else if p.height ≤ 0 then
    (Except.error (SqlError.checkViolation "height"), s)
  else if s.photos.any (fun q => q.filename == p.filename) then
    (Except.error (SqlError.uniqueViolation "photos.filename"), s)
  else
    let photo : Photo :=
      { id := s.nextId
        filename := p.filename
        originalName := p.originalName
        guestName := p.guestName
        caption := p.caption
        mimeType := p.mimeType
        fileSize := p.fileSize
        width := p.width
        height := p.height
        uploadedAt := s.nextId
        ipAddress := p.ipAddress }
    let s1 : DBState := { s with photos := photo :: s.photos, nextId := s.nextId + 1 }
    (Except.ok photo, updateStorageStats s1 p.fileSize 1)

/-- DatabaseService.deletePhoto: look the row up, return false when it
is absent; otherwise DELETE FROM photos WHERE id = ? and, when the
statement reports a removed row, updateStorageStats(-fileSize, -1). -/
def deletePhoto (s : DBState) (id : Int) : Bool × DBState :=
  match getPhotoById s id with
  | none => (false, s)
  | some photo =>
    let photos1 := s.photos.filter (fun p => !((p.id : Int) == id))
    let changes := s.photos.length - photos1.length
    if changes > 0 then
      (true, updateStorageStats { s with photos := photos1 } (-photo.fileSize) (-1))
    else
      (false, { s with photos := photos1 })

/-- ORDER BY uploaded_at DESC of getAllPhotos (a stable sort on the
timestamp, newest first). -/
def orderByUploadedAtDesc (l : List Photo) : List Photo :=
  List.insertionSort (fun a b => b.uploadedAt ≤ a.uploadedAt) l

/-- SQLite LIMIT/OFFSET semantics: a negative OFFSET skips nothing and a
negative LIMIT returns all remaining rows. -/
def sqliteLimitOffset (rows : List Photo) (limit offset : Int) : List Photo :=
  let dropped := rows.drop offset.toNat
  if limit < 0 then dropped else dropped.take limit.toNat

/-- DatabaseService.getAllPhotos: SELECT ... ORDER BY uploaded_at DESC
LIMIT ? OFFSET ?. -/
def getAllPhotos (s : DBState) (limit offset : Int) : List Photo :=
  sqliteLimitOffset (orderByUploadedAtDesc s.photos) limit offset

/-- Well-formedness that the schema guarantees: row ids are pairwise
distinct (PRIMARY KEY) and below the AUTOINCREMENT counter, and the
CHECK constraints hold on every stored row. -/
def DBState.wf (s : DBState) : Prop :=
  (s.photos.map Photo.id).Nodup ∧
  (∀ p ∈ s.photos, p.id < s.nextId) ∧
  (∀ p ∈ s.photos, 0 < p.fileSize ∧ 0 < p.width ∧ 0 < p.height)

/-- Storage-stats invariant of the spec: the denormalized aggregate
equals count and SUM(file_size) over the live rows. -/
def DBState.statsOk (s : DBState) : Prop :=
  s.total_files = (s.photos.length : Int) ∧
  s.total_size_bytes = (s.photos.map Photo.fileSize).sum

instance (s : DBState) : Decidable s.wf := by
  unfold DBState.wf; infer_instance

instance (s : DBState) : Decidable s.statsOk := by
  unfold DBState.statsOk; infer_instance

/-- Combined invariant carried by every reachable database state. -/
def DBState.Inv (s : DBState) : Prop := s.wf ∧ s.statsOk

instance (s : DBState) : Decidable s.Inv := by
  unfold DBState.Inv; infer_instance

/-- Configuration values the verified components read (src/config.ts
holds deployment constants parsed from the environment; the components
treat them as opaque parameters, modelled here as such). JavaScript
float arithmetic on the storage cap is modelled with exact rationals. -/
structure Config where
  maxStorageGB : ℚ
  maxImageWidth : Nat
  maxImageHeight : Nat
deriving Repr, DecidableEq

/-- AppError of middleware/errorHandler: an HTTP status code plus a
message, converted by the error handler into the uniform error
envelope. -/
structure AppError where
  statusCode : Nat
  message : String
deriving Repr, DecidableEq

/-- StorageMiddleware.checkStorageLimit (src/middleware/storage.ts,
lines 9-27). reqFile is req.file?.size: some size when Express carries a
single parsed file on req.file, none when req.file is undefined; the
fallback 0 is the JavaScript or-expression. Returns the AppError passed
to next(), or none when the upload is admitted. -/
def checkStorageLimit (cfg : Config) (s : DBState) (reqFile : Option Int) : Option AppError :=
  let stats := getStorageStats s
  if stats.totalSizeGB ≥ cfg.maxStorageGB then
    some { statusCode := 507, message := "Storage limit exceeded. Maximum storage capacity reached." }
  else
    let fileSize : Int := reqFile.getD 0
    let projectedSize : ℚ := ((stats.totalSizeBytes + fileSize : Int) : ℚ) / (1024 * 1024 * 1024)
    if projectedSize > cfg.maxStorageGB then
      some { statusCode := 507, message := "Upload would exceed storage limit." }
    else
      none

/-- Storage gate as wired on POST /upload (photoRoutes.ts lines 36-58):
the route parses the multipart body with multer's upload.any(), which
stores the parsed files in the req.files array and never sets req.file,
so checkStorageLimit always reads req.file?.size as undefined and falls
back to 0, whatever the byte size of the files being uploaded. -/
def uploadStorageGate (cfg : Config) (s : DBState) : Option AppError :=
  checkStorageLimit cfg s none

/-- JavaScript expression (parseInt(x) || d): parseInt's NaN (modelled
none) and 0 are falsy and give the default. -/
def jsIntOr (v : Option Int) (d : Int) : Int :=
  match v with
  | none => d
  | some n => if n = 0 then d else n

/-- Pagination object of the GET /api/photos response. -/
structure Pagination where
  total : Int
  limit : Int
  offset : Int
  hasMore : Bool
deriving Repr, DecidableEq

/-- Response of PhotoRoutes.getPhotos; the route projects each row to a
client DTO, which keeps the item count and order, so the Photo rows
stand in for the projected items. -/
structure PhotosListing where
  photos : List Photo
  pagination : Pagination
deriving Repr, DecidableEq

/-- PhotoRoutes.getPhotos (photoRoutes.ts lines 174-204):
limit = Math.min(parseInt(req.query.limit) || 100, 1000),
offset = parseInt(req.query.offset) || 0, items from getAllPhotos,
hasMore = offset + photos.length < totalCount. -/
def getPhotos (s : DBState) (limitParam offsetParam : Option Int) : PhotosListing :=
  let limit := min (jsIntOr limitParam 100) 1000
  let offset := jsIntOr offsetParam 0
  let photos := getAllPhotos s limit offset
  let totalCount := getPhotoCount s
  { photos := photos
    pagination :=
      { total := totalCount
        limit := limit
        offset := offset
        hasMore := decide (offset + (photos.length : Int) < totalCount) } }

namespace ImageServiceA

/-- Allow-list of validateImageType in src/imageService.ts (this copy of
the class has no HEIC support). -/
def allowedTypes : List String := ["image/jpeg", "image/png", "image/webp"]

/-- ImageService.validateImageType of src/imageService.ts: the argument
is the magic-byte sniff of fileTypeFromBuffer (none when the buffer
matches no known signature); some mime is returned exactly when the
sniffed mime is on the allow-list. -/
def validateImageType (sniffed : Option String) : Option String :=
  match sniffed with
  | none => none
  | some m => if m ∈ allowedTypes then some m else none

end ImageServiceA

namespace ImageServiceHeic

/-- Allow-list of validateImageType in the duplicate ImageService copy
(the one carrying the HEIC branch, bundled after storage.ts). -/
def allowedTypes : List String :=
  ["image/jpeg", "image/png", "image/webp", "image/heic", "image/heif"]

/-- validateImageType of the HEIC-enabled ImageService copy. -/
def validateImageType (sniffed : Option String) : Option String :=
  match sniffed with
  | none => none
  | some m => if m ∈ allowedTypes then some m else none

/-- The isHeic test of processImage. -/
def isHeic (m : String) : Bool :=
  m == "image/heic" || m == "image/heif"

/-- outputMimeType of processImage: HEIC/HEIF are converted to WebP for
compatibility, every other accepted type keeps its sniffed mime, and the
returned ProcessedImage.mimeType is exactly this value. -/
def outputMimeType (m : String) : String :=
  if isHeic m then "image/webp" else m

/-- outputFormat of processImage: webp for HEIC/HEIF, otherwise the
extension of the sanitized original name with the jpg fallback
(path.extname(sanitize(originalName)).slice(1) modelled as an optional
extension). -/
def outputFormat (m : String) (extFromName : Option String) : String :=
  if isHeic m then "webp" else extFromName.getD "jpg"

end ImageServiceHeic

/-- Modelled from sharp's documented resize semantics (fit inside with
withoutEnlargement, imageService.ts lines 96-101): both dimensions are
scaled by the common factor min(maxW/w, maxH/h) and rounded to the
nearest integer (half up, computed here as (2*num + den) / (2*den) over
naturals) with a one-pixel floor; withoutEnlargement keeps the source
size when the factor is at least 1. -/
def resizeInside (w h maxW maxH : Nat) : Nat × Nat :=
  if w ≤ maxW ∧ h ≤ maxH then (w, h)
  else if h * maxW ≤ w * maxH then
    (maxW, max 1 ((2 * (h * maxW) + w) / (2 * w)))
  else
    (max 1 ((2 * (w * maxH) + h) / (2 * h)), maxH)

/-- EXIF orientation tag of the decoded buffer: tags 5-8 transpose the
image, so sharp's rotate() swaps width and height; tags 1-4 (and absent
metadata, tag 0 here) keep them. -/
def orientationSwaps (o : Nat) : Bool :=
  decide (5 ≤ o ∧ o ≤ 8)

/-- Dimension behaviour of ImageService.processImage, orientation
included. sharp's metadata reports the pre-rotation (stored) width and
height w, h; the pipeline applies rotate() (line 93) before any resize,
so a transposing orientation swaps the dimensions first; the resize step
is added only when the PRE-rotation metadata width or height exceeds the
configured maximum (line 96), and when added it fits the rotated image
inside the configured box. The returned ProcessedImage width/height come
from the written file's outputInfo, i.e. they are these post-rotate,
post-resize dimensions. -/
def processImageDims (cfg : Config) (w h o : Nat) : Nat × Nat :=
  if w > cfg.maxImageWidth ∨ h > cfg.maxImageHeight then
    if orientationSwaps o then
      resizeInside h w cfg.maxImageWidth cfg.maxImageHeight
    else
      resizeInside w h cfg.maxImageWidth cfg.maxImageHeight
  else
    if orientationSwaps o then (h, w) else (w, h)

/-- Combined server state: the database plus the set of filenames in the
upload (content) directory. -/
structure SysState where
  db : DBState
  files : List String
deriving Repr, DecidableEq

/-- ImageService.deleteImage (imageService.ts lines 150-162): existsSync
then unlinkSync, every error swallowed into a false return. unlinkOk
injects whether the unlinkSync call itself succeeds. -/
def deleteImage (files : List String) (filename : String) (unlinkOk : Bool) :
    Bool × List String :=
  if filename ∈ files then
    if unlinkOk then (true, files.erase filename) else (false, files)
  else (false, files)

/-- Outcome of a route handler: an HTTP success status, or the AppError
forwarded to the error handler. -/
inductive RouteResult where
  | success : Nat → RouteResult
  | failure : AppError → RouteResult
deriving Repr, DecidableEq

/-- PhotoRoutes.getPhotoById (photoRoutes.ts lines 228-257). idParam is
parseInt(req.params.id), none when NaN. -/
def getPhotoByIdRoute (s : SysState) (idParam : Option Int) : RouteResult × SysState :=
  match idParam with
  | none => (RouteResult.failure { statusCode := 400, message := "Invalid photo ID" }, s)
  | some id =>
    match getPhotoById s.db id with
    | none => (RouteResult.failure { statusCode := 404, message := "Photo not found" }, s)
    | some _ => (RouteResult.success 200, s)

/-- PhotoRoutes.servePhotoFile (photoRoutes.ts lines 259-285). -/
def servePhotoFileRoute (s : SysState) (idParam : Option Int) : RouteResult × SysState :=
  match idParam with
  | none => (RouteResult.failure { statusCode := 400, message := "Invalid photo ID" }, s)
  | some id =>
    match getPhotoById s.db id with
    | none => (RouteResult.failure { statusCode := 404, message := "Photo not found" }, s)
    | some photo =>
      if photo.filename ∈ s.files then (RouteResult.success 200, s)
      else (RouteResult.failure { statusCode := 404, message := "Photo file not found" }, s)

/-- PhotoRoutes.deletePhoto (photoRoutes.ts lines 316-339): parse the
id, look the record up, call imageService.deleteImage ignoring its
boolean result, then db.deletePhoto, then report success. unlinkOk
injects the unlink outcome inside deleteImage; dbOk injects whether the
DELETE statement runs without a database error - when it throws, the
asyncHandler forwards a 500 after the file was already removed. -/
def deletePhotoRoute (s : SysState) (idParam : Option Int) (unlinkOk dbOk : Bool) :
    RouteResult × SysState :=
  match idParam with
  | none => (RouteResult.failure { statusCode := 400, message := "Invalid photo ID" }, s)
  | some id =>
    match getPhotoById s.db id with
    | none => (RouteResult.failure { statusCode := 404, message := "Photo not found" }, s)
    | some photo =>
      let files1 := (deleteImage s.files photo.filename unlinkOk).2
      if dbOk then
        (RouteResult.success 200, { db := (deletePhoto s.db id).2, files := files1 })
      else
        (RouteResult.failure { statusCode := 500, message := "Internal server error" },
          { s with files := files1 })

/-- Concrete store holding one five-byte JPEG with id 1 and filename
a.jpg, used by the concrete-input theorems. -/
def onePhotoState : DBState :=
  { photos :=
      [ { id := 1, filename := "a.jpg", originalName := "a.jpg",
          guestName := none, caption := none, mimeType := "image/jpeg",
          fileSize := 5, width := 2, height := 3, uploadedAt := 1,
          ipAddress := none } ]
    nextId := 2
    total_files := 1
    total_size_bytes := 5 }

/-- Bookkeeping of one DELETE: when the ids are pairwise distinct and
the lookup finds photo, the filter removes exactly that row, so the
length drops by one and the file-size sum drops by photo.fileSize. -/
theorem filter_delete_bookkeeping (l : List Photo) (id : Int) (photo : Photo)
    (hnd : (l.map Photo.id).Nodup)
    (hfind : l.find? (fun p => (p.id : Int) == id) = some photo) :
    (l.filter (fun p => !((p.id : Int) == id))).length = l.length - 1 ∧
    ((l.filter (fun p => !((p.id : Int) == id))).map Photo.fileSize).sum
      = (l.map Photo.fileSize).sum - photo.fileSize := by
  induction l with
  | nil => simp at hfind
  | cons a l ih =>
    rw [List.map_cons, List.nodup_cons] at hnd
    obtain ⟨hnotin, hnd2⟩ := hnd
    by_cases ha : ((a.id : Int) == id) = true
    · simp only [List.find?_cons, ha] at hfind
      obtain rfl : a = photo := by injection hfind
      have hid : (a.id : Int) = id := by simpa using ha
      subst hid
      have hrest : ∀ p ∈ l, (fun p => !((p.id : Int) == (a.id : Int))) p = true := by
        intro p hp
        have hne : p.id ≠ a.id := fun hc => hnotin (List.mem_map.mpr ⟨p, hp, hc⟩)
        simp [hne]
      rw [List.filter_cons_of_neg (by simp), List.filter_eq_self.mpr hrest]
      constructor
      · simp
      · simp only [List.map_cons, List.sum_cons]; omega
    · rw [Bool.not_eq_true] at ha
      simp only [List.find?_cons, ha] at hfind
      have hlen : 1 ≤ l.length :=
        List.length_pos.mpr (List.ne_nil_of_mem (List.mem_of_find?_eq_some hfind))
      obtain ⟨ih1, ih2⟩ := ih hnd2 hfind
      rw [List.filter_cons_of_pos (by simp [ha])]
      constructor
      · simp only [List.length_cons, ih1]; omega
      · simp only [List.map_cons, List.sum_cons, ih2]; omega

/-- insertPhoto preserves the database invariant. -/
theorem insertPhoto_preserves_Inv (s : DBState) (p : PhotoInput) (h : s.Inv) :
    (insertPhoto s p).2.Inv := by
  unfold insertPhoto
  split
  · exact h
  · split
    · exact h
    · split
      · exact h
      · split
        · exact h
        · rename_i hfs hw hh hdup
          obtain ⟨⟨hnd, hlt, hchk⟩, hfiles, hsize⟩ := h
          refine ⟨⟨?_, ?_, ?_⟩, ?_, ?_⟩
          · simp only [updateStorageStats, List.map_cons, List.nodup_cons]
            refine ⟨?_, hnd⟩
            intro hmem
            rcases List.mem_map.mp hmem with ⟨q, hq, hqid⟩
            have := hlt q hq
            omega
          · intro q hq
            simp only [updateStorageStats, List.mem_cons] at hq
            rcases hq with rfl | hq
            · exact Nat.lt_succ_self _
            · exact Nat.lt_succ_of_lt (hlt q hq)
          · intro q hq
            simp only [updateStorageStats, List.mem_cons] at hq
            rcases hq with rfl | hq
            · refine ⟨?_, ?_, ?_⟩
              · show (0 : Int) < p.fileSize
                omega
              · show (0 : Int) < p.width
                omega
              · show (0 : Int) < p.height
                omega
            · exact hchk q hq
          · simp only [updateStorageStats, List.length_cons, hfiles]
            push_cast; ring
          · simp only [updateStorageStats, List.map_cons, List.sum_cons, hsize]
            ring

theorem updateStorageStats_photos (s : DBState) (b c : Int) :
    (updateStorageStats s b c).photos = s.photos := rfl

theorem updateStorageStats_files (s : DBState) (b c : Int) :
    (updateStorageStats s b c).total_files = s.total_files + c := rfl

theorem updateStorageStats_size (s : DBState) (b c : Int) :
    (updateStorageStats s b c).total_size_bytes = s.total_size_bytes + b := rfl

/-- deletePhoto on a missing id is a no-op returning false. -/
theorem deletePhoto_not_found (s : DBState) (id : Int)
    (h : getPhotoById s id = none) : deletePhoto s id = (false, s) := by
  unfold deletePhoto
  rw [h]

/-- deletePhoto on a present id (under distinct ids) removes the matching
rows and decrements the aggregate by the found record's size. -/
theorem deletePhoto_found (s : DBState) (id : Int) (photo : Photo)
    (hnd : (s.photos.map Photo.id).Nodup)
    (h : getPhotoById s id = some photo) :
    deletePhoto s id =
      (true,
        updateStorageStats
          { s with photos := s.photos.filter (fun p => !((p.id : Int) == id)) }
          (-photo.fileSize) (-1)) := by
  unfold getPhotoById at h
  have hlen := (filter_delete_bookkeeping s.photos id photo hnd h).1
  have hpos : 1 ≤ s.photos.length :=
    List.length_pos.mpr (List.ne_nil_of_mem (List.mem_of_find?_eq_some h))
  unfold deletePhoto getPhotoById
  rw [h]
  dsimp only
  rw [if_pos (by rw [hlen]; omega)]

/-- deletePhoto preserves the database invariant. -/
theorem deletePhoto_preserves_Inv (s : DBState) (id : Int) (h : s.Inv) :
    (deletePhoto s id).2.Inv := by
  obtain ⟨⟨hnd, hlt, hchk⟩, hfiles, hsize⟩ := h
  cases hfind : getPhotoById s id with
  | none =>
    rw [deletePhoto_not_found s id hfind]
    exact ⟨⟨hnd, hlt, hchk⟩, hfiles, hsize⟩
  | some photo =>
    rw [deletePhoto_found s id photo hnd hfind]
    unfold getPhotoById at hfind
    obtain ⟨hlen, hsum⟩ := filter_delete_bookkeeping s.photos id photo hnd hfind
    have hpos : 1 ≤ s.photos.length :=
      List.length_pos.mpr (List.ne_nil_of_mem (List.mem_of_find?_eq_some hfind))
    have hwf1 : ((s.photos.filter (fun p => !((p.id : Int) == id))).map Photo.id).Nodup :=
      List.Nodup.sublist ((List.filter_sublist s.photos).map Photo.id) hnd
    refine ⟨⟨?_, ?_, ?_⟩, ?_, ?_⟩
    · simpa only [updateStorageStats_photos] using hwf1
    · intro q hq
      rw [updateStorageStats_photos] at hq
      exact hlt q (List.mem_of_mem_filter hq)
    · intro q hq
      rw [updateStorageStats_photos] at hq
      exact hchk q (List.mem_of_mem_filter hq)
    · rw [updateStorageStats_files, updateStorageStats_photos]
      show s.total_files + (-1) = _
      rw [hfiles, hlen]
      omega
    · rw [updateStorageStats_size, updateStorageStats_photos]
      show s.total_size_bytes + (-photo.fileSize) = _
      rw [hsize, hsum]
      ring

/-- Filtering with a predicate that rejects some member strictly
shrinks the list. -/
theorem length_filter_lt_of_mem_not {α : Type} (l : List α) (pr : α → Bool) (a : α)
    (ha : a ∈ l) (hpa : pr a = false) : (l.filter pr).length < l.length := by
  induction l with
  | nil => cases ha
  | cons b l ih =>
    rcases List.mem_cons.mp ha with rfl | ha2
    · rw [List.filter_cons_of_neg (by simp [hpa])]
      have hle := List.length_filter_le pr l
      simp only [List.length_cons]
      omega
    · by_cases hb : pr b = true
      · rw [List.filter_cons_of_pos hb]
        simp only [List.length_cons]
        exact Nat.succ_lt_succ (ih ha2)
      · rw [List.filter_cons_of_neg hb]
        have := ih ha2
        simp only [List.length_cons]
        omega

/-- Nonnegativity of the aggregate follows from the invariant. -/
theorem inv_nonneg (s : DBState) (h : s.Inv) :
    0 ≤ s.total_files ∧ 0 ≤ s.total_size_bytes := by
  obtain ⟨⟨hnd, hlt, hchk⟩, hfiles, hsize⟩ := h
  constructor
  · rw [hfiles]; exact_mod_cast Nat.zero_le _
  · rw [hsize]
    refine List.sum_nonneg ?_
    intro x hx
    rcases List.mem_map.mp hx with ⟨q, hq, rfl⟩
    exact le_of_lt (hchk q hq).1

/-- When the lookup succeeds, deletePhoto reports true (a row really is
removed), with no distinctness assumption. -/
theorem deletePhoto_found_true (s : DBState) (id : Int) (photo : Photo)
    (h : getPhotoById s id = some photo) : (deletePhoto s id).1 = true := by
  unfold getPhotoById at h
  have hmem := List.mem_of_find?_eq_some h
  have hpr := List.find?_some h
  have hlt : (s.photos.filter (fun p => !((p.id : Int) == id))).length < s.photos.length :=
    length_filter_lt_of_mem_not s.photos _ photo hmem (by simp [hpr])
  unfold deletePhoto getPhotoById
  rw [h]
  dsimp only
  rw [if_pos (by omega)]

/-- C1: after every insert and every delete the storage aggregate
(total_files, total_size_bytes) again equals the count of live photo
rows and the sum of their fileSize values, both totals stay nonnegative,
and the full well-formedness invariant is re-established; the freshly
initialized store satisfies the invariant, so every reachable state
does. -/
theorem c1_storage_aggregate_invariant (s : DBState) (p : PhotoInput) (id : Int)
    (h : s.Inv) :
    DBState.initial.Inv ∧
    ((insertPhoto s p).2.statsOk ∧
      0 ≤ (insertPhoto s p).2.total_files ∧
      0 ≤ (insertPhoto s p).2.total_size_bytes ∧
      (insertPhoto s p).2.Inv) ∧
    ((deletePhoto s id).2.statsOk ∧
      0 ≤ (deletePhoto s id).2.total_files ∧
      0 ≤ (deletePhoto s id).2.total_size_bytes ∧
      (deletePhoto s id).2.Inv) := by
  have hi := insertPhoto_preserves_Inv s p h
  have hd := deletePhoto_preserves_Inv s id h
  obtain ⟨hi1, hi2⟩ := inv_nonneg _ hi
  obtain ⟨hd1, hd2⟩ := inv_nonneg _ hd
  exact ⟨by decide, ⟨hi.2, hi1, hi2, hi⟩, ⟨hd.2, hd1, hd2, hd⟩⟩

/-- Witness for c1_storage_aggregate_invariant at the initial store, a
concrete five-byte JPEG insert and a delete of id 1. -/
theorem c1_storage_aggregate_invariant_witness :
    ((insertPhoto DBState.initial
        { filename := "a.jpg", originalName := "a.jpg", guestName := none,
          caption := none, mimeType := "image/jpeg", fileSize := 5,
          width := 2, height := 3, ipAddress := none }).2.statsOk ∧
      0 ≤ (insertPhoto DBState.initial
        { filename := "a.jpg", originalName := "a.jpg", guestName := none,
          caption := none, mimeType := "image/jpeg", fileSize := 5,
          width := 2, height := 3, ipAddress := none }).2.total_files ∧
      0 ≤ (insertPhoto DBState.initial
        { filename := "a.jpg", originalName := "a.jpg", guestName := none,
          caption := none, mimeType := "image/jpeg", fileSize := 5,
          width := 2, height := 3, ipAddress := none }).2.total_size_bytes ∧
      (insertPhoto DBState.initial
        { filename := "a.jpg", originalName := "a.jpg", guestName := none,
          caption := none, mimeType := "image/jpeg", fileSize := 5,
          width := 2, height := 3, ipAddress := none }).2.Inv) ∧
    ((deletePhoto DBState.initial 1).2.statsOk ∧
      0 ≤ (deletePhoto DBState.initial 1).2.total_files ∧
      0 ≤ (deletePhoto DBState.initial 1).2.total_size_bytes ∧
      (deletePhoto DBState.initial 1).2.Inv) :=
  (c1_storage_aggregate_invariant DBState.initial
    { filename := "a.jpg", originalName := "a.jpg", guestName := none,
      caption := none, mimeType := "image/jpeg", fileSize := 5,
      width := 2, height := 3, ipAddress := none } 1 (by decide)).2

/-- C7: deleting an id with no matching row returns the not-found result
false and leaves the whole state (aggregate included) unchanged; a false
result never changes the state; and the aggregate is decremented by the
found record's size exactly when a row was removed. -/
theorem c7_delete_missing_id_no_change (s : DBState) (id : Int) :
    (getPhotoById s id = none → deletePhoto s id = (false, s)) ∧
    ((deletePhoto s id).1 = false → (deletePhoto s id).2 = s) ∧
    (∀ photo, (s.photos.map Photo.id).Nodup → getPhotoById s id = some photo →
      (deletePhoto s id).1 = true ∧
      (deletePhoto s id).2.total_size_bytes = s.total_size_bytes - photo.fileSize ∧
      (deletePhoto s id).2.total_files = s.total_files - 1) := by
  refine ⟨fun h => deletePhoto_not_found s id h, ?_, ?_⟩
  · intro hfalse
    cases hfind : getPhotoById s id with
    | none => rw [deletePhoto_not_found s id hfind]
    | some photo =>
      rw [deletePhoto_found_true s id photo hfind] at hfalse
      cases hfalse
  · intro photo hnd hfind
    refine ⟨deletePhoto_found_true s id photo hfind, ?_, ?_⟩
    · rw [deletePhoto_found s id photo hnd hfind]
      rw [updateStorageStats_size]
      ring
    · rw [deletePhoto_found s id photo hnd hfind]
      rw [updateStorageStats_files]
      ring

/-- Witness for c7_delete_missing_id_no_change: deleting id 7 from the
empty initial store reports false and leaves it untouched. -/
theorem c7_delete_missing_id_no_change_witness :
    deletePhoto DBState.initial 7 = (false, DBState.initial) :=
  (c7_delete_missing_id_no_change DBState.initial 7).1 (by decide)

/-- C8: insertPhoto updates the aggregate only after the INSERT
statement succeeded: every failing insert (violated CHECK on fileSize,
width or height, or a UNIQUE filename collision) returns the state
unchanged, and those are exactly the failing cases. -/
theorem c8_insert_failure_keeps_aggregate (s : DBState) (p : PhotoInput) :
    (∀ e, (insertPhoto s p).1 = Except.error e → (insertPhoto s p).2 = s) ∧
    ((∃ e, (insertPhoto s p).1 = Except.error e) ↔
      (p.fileSize ≤ 0 ∨ p.width ≤ 0 ∨ p.height ≤ 0 ∨
        s.photos.any (fun q => q.filename == p.filename) = true)) := by
  by_cases h1 : p.fileSize ≤ 0
  · constructor
    · intro e _
      simp [insertPhoto, h1]
    · simp [insertPhoto, h1]
  · by_cases h2 : p.width ≤ 0
    · constructor
      · intro e _
        simp [insertPhoto, h1, h2]
      · simp [insertPhoto, h1, h2]
    · by_cases h3 : p.height ≤ 0
      · constructor
        · intro e _
          simp [insertPhoto, h1, h2, h3]
        · simp [insertPhoto, h1, h2, h3]
      · by_cases h4 : s.photos.any (fun q => q.filename == p.filename) = true
        · constructor
          · intro e _
            simp [insertPhoto, h1, h2, h3, h4]
          · simp [insertPhoto, h1, h2, h3, h4]
        · constructor
          · intro e he
            simp [insertPhoto, h1, h2, h3, h4] at he
          · simp [insertPhoto, h1, h2, h3, h4]

/-- Witness for c8_insert_failure_keeps_aggregate: inserting a record
with fileSize 0 into the initial store fails and changes nothing. -/
theorem c8_insert_failure_keeps_aggregate_witness :
    (insertPhoto DBState.initial
      { filename := "z.png", originalName := "z.png", guestName := none,
        caption := none, mimeType := "image/png", fileSize := 0,
        width := 4, height := 4, ipAddress := none }).2 = DBState.initial :=
  (c8_insert_failure_keeps_aggregate DBState.initial
    { filename := "z.png", originalName := "z.png", guestName := none,
      caption := none, mimeType := "image/png", fileSize := 0,
      width := 4, height := 4, ipAddress := none }).1
    (SqlError.checkViolation "file_size") (by rfl)

/-- Store whose aggregate sits one byte under a 1 GB cap. -/
theorem nearFullState_statsOk :
    (DBState.mk
      [ { id := 1, filename := "big.jpg", originalName := "big.jpg",
          guestName := none, caption := none, mimeType := "image/jpeg",
          fileSize := 1073741823, width := 4000, height := 3000,
          uploadedAt := 1, ipAddress := none } ] 2 1 1073741823).statsOk := by
  decide

/-- C2 (code evaluated at the failing input): with a 1 GB cap and
1073741823 bytes already stored, checkStorageLimit would reject a
1073741824-byte candidate (the projected usage exceeds the cap, second
and third conjuncts) - but the gate as wired on POST /upload admits the
request (first conjunct), because upload.any() parses files into
req.files and never sets req.file, so the middleware reads the candidate
size as 0 and processing proceeds. -/
theorem c2_quota_gate_ignores_candidate_size :
    uploadStorageGate { maxStorageGB := 1, maxImageWidth := 4096, maxImageHeight := 4096 }
        (DBState.mk
          [ { id := 1, filename := "big.jpg", originalName := "big.jpg",
              guestName := none, caption := none, mimeType := "image/jpeg",
              fileSize := 1073741823, width := 4000, height := 3000,
              uploadedAt := 1, ipAddress := none } ] 2 1 1073741823) = none ∧
    checkStorageLimit { maxStorageGB := 1, maxImageWidth := 4096, maxImageHeight := 4096 }
        (DBState.mk
          [ { id := 1, filename := "big.jpg", originalName := "big.jpg",
              guestName := none, caption := none, mimeType := "image/jpeg",
              fileSize := 1073741823, width := 4000, height := 3000,
              uploadedAt := 1, ipAddress := none } ] 2 1 1073741823)
        (some 1073741824) =
      some { statusCode := 507, message := "Upload would exceed storage limit." } ∧
    ((1073741823 + 1073741824 : ℚ) / (1024 * 1024 * 1024) > 1) := by
  refine ⟨?_, ?_, by norm_num⟩
  · norm_num [uploadStorageGate, checkStorageLimit, getStorageStats]
  · norm_num [checkStorageLimit, getStorageStats]

/-- Length of a LIMIT/OFFSET selection is bounded by a nonnegative
limit. -/
theorem sqliteLimitOffset_length_le (rows : List Photo) (limit offset : Int)
    (h : 0 ≤ limit) :
    ((sqliteLimitOffset rows limit offset).length : Int) ≤ limit := by
  unfold sqliteLimitOffset
  rw [if_neg (by omega)]
  calc ((((rows.drop offset.toNat).take limit.toNat).length : Nat) : Int)
      ≤ (limit.toNat : Int) := by
        exact_mod_cast List.length_take_le limit.toNat (rows.drop offset.toNat)
    _ = limit := Int.toNat_of_nonneg h

/-- C3 (amended): when the parsed limit L is positive, the listing
returns at most min(L, 1000) items; a limit that is absent or parses to
0 falls back to the default 100 (0 is falsy in JavaScript, so limit=0 is
not honoured as a bound of 0); offset defaults to 0; and hasMore is true
exactly when offset plus the returned item count is strictly below the
total row count. -/
theorem c3_pagination_bounds (s : DBState) (lp op : Option Int) :
    (∀ L, lp = some L → 0 < L →
      (((getPhotos s lp op).photos.length : Int) ≤ min L 1000)) ∧
    ((lp = none ∨ lp = some 0) → (getPhotos s lp op).photos.length ≤ 100) ∧
    ((getPhotos s lp op).pagination.hasMore = true ↔
      (getPhotos s lp op).pagination.offset + ((getPhotos s lp op).photos.length : Int)
        < getPhotoCount s) := by
  refine ⟨?_, ?_, ?_⟩
  · intro L hlp hL
    subst hlp
    have hjs : jsIntOr (some L) 100 = L := by
      simp only [jsIntOr]
      rw [if_neg (by omega)]
    simp only [getPhotos, hjs]
    exact sqliteLimitOffset_length_le _ _ _ (by omega)
  · intro hcase
    have hjs : jsIntOr lp 100 = 100 := by
      rcases hcase with rfl | rfl
      · rfl
      · rfl
    have h100 : ((getPhotos s lp op).photos.length : Int) ≤ 100 := by
      simp only [getPhotos, hjs]
      exact sqliteLimitOffset_length_le _ _ _ (by omega)
    exact_mod_cast h100
  · simp only [getPhotos]
    exact decide_eq_true_iff

/-- Witness for c3_pagination_bounds: a positive limit 5 bounds the
result on the one-photo store. -/
theorem c3_pagination_bounds_witness :
    (0 : Int) < 5 ∧
    (((getPhotos onePhotoState (some 5) none).photos.length : Int) ≤ min 5 1000) :=
  ⟨by decide, (c3_pagination_bounds onePhotoState (some 5) none).1 5 rfl (by decide)⟩

/-- C3 counterexample: with one stored photo, the request limit=0 must
return at most min(0, 1000) = 0 items according to the claim, but the
code substitutes the default 100 for the falsy parsed value 0 and
returns the photo. -/
theorem c3_pagination_limit_zero_counterexample :
    ¬ (((getPhotos onePhotoState (some 0) none).photos.length : Int) ≤ min 0 1000) := by
  decide

/-- The copy of ImageService in src/imageService.ts rejects HEIC
outright (its allow-list stops at WebP); the HEIC conversion claim holds
of the duplicate copy modelled in the ImageServiceHeic namespace. -/
theorem validateImageTypeA_rejects_heic :
    ImageServiceA.validateImageType (some "image/heic") = none ∧
    ImageServiceA.validateImageType (some "image/heif") = none := by
  constructor <;> rfl

/-- C4: the HEIC-branch ingest pipeline accepts sniffed HEIC and HEIF
buffers, converts both to the stored output MIME image/webp, never
stores image/heic, and keeps the sniffed MIME for every other accepted
type. -/
theorem c4_heic_converted_to_webp :
    (ImageServiceHeic.validateImageType (some "image/heic") = some "image/heic" ∧
      ImageServiceHeic.validateImageType (some "image/heif") = some "image/heif" ∧
      ImageServiceHeic.outputMimeType "image/heic" = "image/webp" ∧
      ImageServiceHeic.outputMimeType "image/heif" = "image/webp") ∧
    (∀ m, ImageServiceHeic.validateImageType (some m) = some m →
      ImageServiceHeic.isHeic m = false → ImageServiceHeic.outputMimeType m = m) ∧
    (∀ m, ImageServiceHeic.outputMimeType m ≠ "image/heic") := by
  refine ⟨⟨rfl, rfl, rfl, rfl⟩, ?_, ?_⟩
  · intro m _ hm
    unfold ImageServiceHeic.outputMimeType
    rw [hm]
    rfl
  · intro m
    unfold ImageServiceHeic.outputMimeType ImageServiceHeic.isHeic
    by_cases hm : (m == "image/heic" || m == "image/heif") = true
    · rw [hm, if_pos rfl]
      decide
    · rw [Bool.not_eq_true] at hm
      rw [hm]
      simp only [Bool.or_eq_false_iff] at hm
      have := hm.1
      simp only [beq_eq_false_iff_ne, ne_eq] at this
      simpa using this

/-- Witness for c4_heic_converted_to_webp: a sniffed JPEG is accepted
and keeps its MIME. -/
theorem c4_heic_converted_to_webp_witness :
    ImageServiceHeic.outputMimeType "image/jpeg" = "image/jpeg" :=
  (c4_heic_converted_to_webp).2.1 "image/jpeg" (by rfl) (by rfl)

/-- C10: when the id path parameter does not parse to a number (parseInt
yields NaN), each of get-by-id, serve-file and delete fails with the 400
Invalid photo ID error and the whole state (records, aggregate, content
directory) is returned unchanged. -/
theorem c10_nan_id_yields_400 (s : SysState) :
    getPhotoByIdRoute s none =
      (RouteResult.failure { statusCode := 400, message := "Invalid photo ID" }, s) ∧
    servePhotoFileRoute s none =
      (RouteResult.failure { statusCode := 400, message := "Invalid photo ID" }, s) ∧
    (∀ unlinkOk dbOk, deletePhotoRoute s none unlinkOk dbOk =
      (RouteResult.failure { statusCode := 400, message := "Invalid photo ID" }, s)) :=
  ⟨rfl, rfl, fun _ _ => rfl⟩

/-- The rows left by a successful deletePhoto are exactly the non-matching
rows, in both aggregate branches. -/
theorem deletePhoto_photos (s : DBState) (id : Int) (photo : Photo)
    (h : getPhotoById s id = some photo) :
    (deletePhoto s id).2.photos = s.photos.filter (fun p => !((p.id : Int) == id)) := by
  unfold deletePhoto
  rw [h]
  dsimp only
  split
  · rfl
  · rfl

/-- No row with the deleted id survives the filter. -/
theorem find?_filter_removed (l : List Photo) (id : Int) :
    (l.filter (fun p => !((p.id : Int) == id))).find? (fun p => (p.id : Int) == id) = none := by
  rw [List.find?_eq_none]
  intro x hx
  have hkeep := List.of_mem_filter hx
  simp only [Bool.not_eq_eq_eq_not, Bool.not_true] at hkeep
  simp [hkeep]

/-- Unlinking with a unique filename really removes it. -/
theorem deleteImage_removes (files : List String) (fn : String) (hnf : files.Nodup) :
    fn ∉ (deleteImage files fn true).2 := by
  unfold deleteImage
  by_cases h : fn ∈ files
  · rw [if_pos h, if_pos rfl]
    exact hnf.not_mem_erase
  · rw [if_neg h]
    exact h

/-- Route evaluation of DELETE /photos/:id when the record exists and
the DELETE statement succeeds. -/
theorem deletePhotoRoute_found_ok (s : SysState) (id : Int) (photo : Photo)
    (unlinkOk : Bool) (hfind : getPhotoById s.db id = some photo) :
    deletePhotoRoute s (some id) unlinkOk true =
      (RouteResult.success 200,
        { db := (deletePhoto s.db id).2,
          files := (deleteImage s.files photo.filename unlinkOk).2 }) := by
  simp only [deletePhotoRoute]
  rw [hfind]
  simp

/-- Route evaluation of DELETE /photos/:id when the record exists, the
file deletion has already run, and the DELETE statement then throws. -/
theorem deletePhotoRoute_found_dbfail (s : SysState) (id : Int) (photo : Photo)
    (unlinkOk : Bool) (hfind : getPhotoById s.db id = some photo) :
    deletePhotoRoute s (some id) unlinkOk false =
      (RouteResult.failure { statusCode := 500, message := "Internal server error" },
        { s with files := (deleteImage s.files photo.filename unlinkOk).2 }) := by
  simp only [deletePhotoRoute]
  rw [hfind]
  simp

/-- C5 (amended): the delete route removes the backing file first and
the database record second, so a database failure between the two steps
leaves the record live while its file is gone (a dangling record, not an
orphaned file); on success the record is gone, the aggregate is
decremented by the record's byte size, and the file is gone whenever the
unlink succeeded. -/
theorem c5_delete_order_amended (s : SysState) (id : Int) (photo : Photo)
    (unlinkOk : Bool)
    (hnd : (s.db.photos.map Photo.id).Nodup)
    (hfind : getPhotoById s.db id = some photo)
    (hnf : s.files.Nodup) :
    ((deletePhotoRoute s (some id) unlinkOk true).1 = RouteResult.success 200 ∧
      getPhotoById (deletePhotoRoute s (some id) unlinkOk true).2.db id = none ∧
      (deletePhotoRoute s (some id) unlinkOk true).2.db.total_size_bytes
        = s.db.total_size_bytes - photo.fileSize ∧
      (unlinkOk = true →
        photo.filename ∉ (deletePhotoRoute s (some id) unlinkOk true).2.files)) ∧
    ((deletePhotoRoute s (some id) unlinkOk false).2.db = s.db ∧
      getPhotoById (deletePhotoRoute s (some id) unlinkOk false).2.db id = some photo ∧
      (deletePhotoRoute s (some id) unlinkOk false).1 =
        RouteResult.failure { statusCode := 500, message := "Internal server error" } ∧
      (unlinkOk = true →
        photo.filename ∉ (deletePhotoRoute s (some id) unlinkOk false).2.files)) := by
  constructor
  · rw [deletePhotoRoute_found_ok s id photo unlinkOk hfind]
    refine ⟨rfl, ?_, ?_, ?_⟩
    · show getPhotoById (deletePhoto s.db id).2 id = none
      unfold getPhotoById
      rw [deletePhoto_photos s.db id photo hfind]
      exact find?_filter_removed _ _
    · show (deletePhoto s.db id).2.total_size_bytes = _
      rw [deletePhoto_found s.db id photo hnd hfind, updateStorageStats_size]
      ring
    · intro hunlink
      subst hunlink
      exact deleteImage_removes s.files photo.filename hnf
  · rw [deletePhotoRoute_found_dbfail s id photo unlinkOk hfind]
    refine ⟨rfl, hfind, rfl, ?_⟩
    intro hunlink
    subst hunlink
    exact deleteImage_removes s.files photo.filename hnf

/-- Witness for c5_delete_order_amended: on the one-photo store with the
file present and every step succeeding, the route reports 200. -/
theorem c5_delete_order_amended_witness :
    (deletePhotoRoute { db := onePhotoState, files := ["a.jpg"] } (some 1) true true).1
      = RouteResult.success 200 :=
  (c5_delete_order_amended { db := onePhotoState, files := ["a.jpg"] } 1
    { id := 1, filename := "a.jpg", originalName := "a.jpg",
      guestName := none, caption := none, mimeType := "image/jpeg",
      fileSize := 5, width := 2, height := 3, uploadedAt := 1,
      ipAddress := none } true (by decide) (by decide) (by decide)).1.1

/-- C5 counterexample: with one photo (id 1, backing file a.jpg present)
and a database failure injected after the file deletion, the resulting
state keeps the record live while its backing file is gone - precisely
the state the claim says can never arise. -/
theorem c5_delete_order_counterexample :
    (getPhotoById (deletePhotoRoute { db := onePhotoState, files := ["a.jpg"] }
        (some 1) true false).2.db 1).isSome = true ∧
    "a.jpg" ∉ (deletePhotoRoute { db := onePhotoState, files := ["a.jpg"] }
        (some 1) true false).2.files ∧
    (deletePhotoRoute { db := onePhotoState, files := ["a.jpg"] } (some 1) true false).1 =
      RouteResult.failure { statusCode := 500, message := "Internal server error" } := by
  decide

/-- C9: when the record exists but its backing file is already absent
from the content directory, the delete route still reports 200 success
(the route discards deleteImage's boolean result), the record is
removed, the content directory is untouched, and the aggregate is
decremented by the record's stored fileSize. -/
theorem c9_delete_with_missing_file_succeeds (s : SysState) (id : Int) (photo : Photo)
    (unlinkOk : Bool)
    (hnd : (s.db.photos.map Photo.id).Nodup)
    (hfind : getPhotoById s.db id = some photo)
    (hfile : photo.filename ∉ s.files) :
    (deletePhotoRoute s (some id) unlinkOk true).1 = RouteResult.success 200 ∧
    (deletePhotoRoute s (some id) unlinkOk true).2.files = s.files ∧
    getPhotoById (deletePhotoRoute s (some id) unlinkOk true).2.db id = none ∧
    (deletePhotoRoute s (some id) unlinkOk true).2.db.total_size_bytes
      = s.db.total_size_bytes - photo.fileSize ∧
    (deletePhotoRoute s (some id) unlinkOk true).2.db.total_files
      = s.db.total_files - 1 := by
  have himg : (deleteImage s.files photo.filename unlinkOk).2 = s.files := by
    unfold deleteImage
    rw [if_neg hfile]
  rw [deletePhotoRoute_found_ok s id photo unlinkOk hfind]
  refine ⟨rfl, himg, ?_, ?_, ?_⟩
  · show getPhotoById (deletePhoto s.db id).2 id = none
    unfold getPhotoById
    rw [deletePhoto_photos s.db id photo hfind]
    exact find?_filter_removed _ _
  · show (deletePhoto s.db id).2.total_size_bytes = _
    rw [deletePhoto_found s.db id photo hnd hfind, updateStorageStats_size]
    ring
  · show (deletePhoto s.db id).2.total_files = _
    rw [deletePhoto_found s.db id photo hnd hfind, updateStorageStats_files]
    ring

/-- Witness for c9_delete_with_missing_file_succeeds: one-photo store
with an empty content directory, deleting id 1 still reports 200. -/
theorem c9_delete_with_missing_file_succeeds_witness :
    (deletePhotoRoute { db := onePhotoState, files := [] } (some 1) true true).1
      = RouteResult.success 200 :=
  (c9_delete_with_missing_file_succeeds { db := onePhotoState, files := [] } 1
    { id := 1, filename := "a.jpg", originalName := "a.jpg",
      guestName := none, caption := none, mimeType := "image/jpeg",
      fileSize := 5, width := 2, height := 3, uploadedAt := 1,
      ipAddress := none } true (by decide) (by decide) (by decide)).1

/-- Bounds for the rounded scaled dimension in the width-binding branch
of resizeInside (and, instantiated with the roles swapped, the
height-binding branch): q = max 1 (round(h*maxW/w)) stays within maxH
and within h, and q*w tracks maxW*h up to one rounding step. -/
theorem resize_q_bounds (w h maxW maxH q : Nat)
    (hw : 1 ≤ w) (hh : 1 ≤ h) (hmh : 1 ≤ maxH)
    (hbind : h * maxW ≤ w * maxH) (hexc : maxW < w)
    (hq : q = max 1 ((2 * (h * maxW) + w) / (2 * w))) :
    q ≤ maxH ∧ q ≤ h ∧ maxW * h ≤ q * w + (w + h) ∧ q * w ≤ maxW * h + (w + h) := by
  have h2w : 0 < 2 * w := by omega
  have hdm := Nat.div_add_mod (2 * (h * maxW) + w) (2 * w)
  have hm : (2 * (h * maxW) + w) % (2 * w) < 2 * w := Nat.mod_lt _ h2w
  have hrh : (2 * (h * maxW) + w) / (2 * w) ≤ maxH := by
    have hlt : 2 * (h * maxW) + w < (maxH + 1) * (2 * w) := by nlinarith
    exact Nat.lt_succ_iff.mp ((Nat.div_lt_iff_lt_mul h2w).mpr hlt)
  have hXw : h * maxW ≤ h * w := Nat.mul_le_mul_left h (Nat.le_of_lt hexc)
  have hrle : (2 * (h * maxW) + w) / (2 * w) ≤ h := by
    have hlt : 2 * (h * maxW) + w < (h + 1) * (2 * w) := by nlinarith
    exact Nat.lt_succ_iff.mp ((Nat.div_lt_iff_lt_mul h2w).mpr hlt)
  have haspect1 : h * maxW ≤ ((2 * (h * maxW) + w) / (2 * w)) * w + w := by
    nlinarith [hdm, hm]
  have haspect2 : ((2 * (h * maxW) + w) / (2 * w)) * w ≤ h * maxW + w := by
    have h1 : 2 * (((2 * (h * maxW) + w) / (2 * w)) * w) ≤ 2 * (h * maxW) + w := by
      calc 2 * (((2 * (h * maxW) + w) / (2 * w)) * w)
          = 2 * w * ((2 * (h * maxW) + w) / (2 * w)) := by ring
        _ ≤ 2 * w * ((2 * (h * maxW) + w) / (2 * w))
              + (2 * (h * maxW) + w) % (2 * w) := Nat.le_add_right _ _
        _ = 2 * (h * maxW) + w := hdm
    have h2 : 2 * (((2 * (h * maxW) + w) / (2 * w)) * w) ≤ 2 * (h * maxW + w) := by
      have hw2 : w ≤ 2 * w := by omega
      calc 2 * (((2 * (h * maxW) + w) / (2 * w)) * w)
          ≤ 2 * (h * maxW) + w := h1
        _ ≤ 2 * (h * maxW) + 2 * w := Nat.add_le_add_left hw2 _
        _ = 2 * (h * maxW + w) := by ring
    exact Nat.le_of_mul_le_mul_left h2 (by omega)
  subst hq
  rcases Nat.lt_or_ge ((2 * (h * maxW) + w) / (2 * w)) 1 with h1r | h1r
  · have hr0 := Nat.lt_one_iff.mp h1r
    have hm2 : 2 * (h * maxW) + w < 2 * w := by
      by_contra hcon
      push_neg at hcon
      have hone := (Nat.one_le_div_iff h2w).mpr hcon
      rw [hr0] at hone
      exact Nat.not_succ_le_zero 0 hone
    rw [hr0]
    refine ⟨?_, ?_, ?_, ?_⟩
    · show (1 : Nat) ≤ maxH
      exact hmh
    · show (1 : Nat) ≤ h
      exact hh
    · show maxW * h ≤ 1 * w + (w + h)
      nlinarith [hm2]
    · show 1 * w ≤ maxW * h + (w + h)
      nlinarith
  · rw [Nat.max_eq_right h1r]
    refine ⟨hrh, hrle, ?_, ?_⟩
    · nlinarith [haspect1]
    · nlinarith [haspect2]

/-- Bounds established by resizeInside whenever some pre-rotation
dimension exceeded its maximum: the result fits the configured box,
never enlarges, and preserves the aspect ratio up to rounding. -/
theorem resize_core_bounds (maxW maxH w h : Nat)
    (hw : 1 ≤ w) (hh : 1 ≤ h) (hmw : 1 ≤ maxW) (hmh : 1 ≤ maxH)
    (hcase : w > maxW ∨ h > maxH) :
    (resizeInside w h maxW maxH).1 ≤ maxW ∧
    (resizeInside w h maxW maxH).2 ≤ maxH ∧
    (resizeInside w h maxW maxH).1 ≤ w ∧
    (resizeInside w h maxW maxH).2 ≤ h ∧
    (resizeInside w h maxW maxH).1 * h ≤ (resizeInside w h maxW maxH).2 * w + (w + h) ∧
    (resizeInside w h maxW maxH).2 * w ≤ (resizeInside w h maxW maxH).1 * h + (w + h) := by
  have hnle : ¬ (w ≤ maxW ∧ h ≤ maxH) := by omega
  unfold resizeInside
  rw [if_neg hnle]
  by_cases hb : h * maxW ≤ w * maxH
  · rw [if_pos hb]
    have hexc : maxW < w := by
      rcases hcase with hc | hc
      · exact hc
      · by_contra hcon
        push_neg at hcon
        have hB : w * maxH ≤ maxW * maxH := Nat.mul_le_mul_right _ hcon
        have hD : (maxH + 1) * maxW ≤ h * maxW := Nat.mul_le_mul_right _ hc
        nlinarith
    obtain ⟨q1, q2, q3, q4⟩ :=
      resize_q_bounds w h maxW maxH _ hw hh hmh hb hexc rfl
    exact ⟨le_refl _, q1, Nat.le_of_lt hexc, q2, q3, q4⟩
  · rw [if_neg hb]
    push_neg at hb
    have hexc : maxH < h := by
      rcases hcase with hc | hc
      · by_contra hcon
        push_neg at hcon
        have hB : h * maxW ≤ maxH * maxW := Nat.mul_le_mul_right _ hcon
        have hD : (maxW + 1) * maxH ≤ w * maxH := Nat.mul_le_mul_right _ hc
        nlinarith
      · exact hc
    obtain ⟨q1, q2, q3, q4⟩ :=
      resize_q_bounds h w maxH maxW _ hh hw hmw (Nat.le_of_lt hb) hexc rfl
    refine ⟨q1, le_refl _, q2, Nat.le_of_lt hexc, ?_, ?_⟩
    · show (max 1 ((2 * (w * maxH) + h) / (2 * h))) * h ≤ maxH * w + (w + h)
      nlinarith [q4]
    · show maxH * w ≤ (max 1 ((2 * (w * maxH) + h) / (2 * h))) * h + (w + h)
      nlinarith [q3]

/-- C6 counterexample: a 3000x1000 decode carrying EXIF orientation 6
(transposed) against configured maxima 4096x2048. The resize decision at
imageService.ts line 96 reads the pre-rotation metadata (3000 <= 4096
and 1000 <= 2048), so no resize step is added; rotate() at line 93 then
swaps the dimensions, and the stored output is 1000x3000, whose height
3000 exceeds the configured maximum 2048 - contradicting the claim that
both returned dimensions are at most the configured maxima. -/
theorem c6_resize_rotation_counterexample :
    ((3000 : Nat) ≤ 4096 ∧ (1000 : Nat) ≤ 2048) ∧
    processImageDims
        { maxStorageGB := 50, maxImageWidth := 4096, maxImageHeight := 2048 }
        3000 1000 6 = (1000, 3000) ∧
    ¬ ((processImageDims
        { maxStorageGB := 50, maxImageWidth := 4096, maxImageHeight := 2048 }
        3000 1000 6).2 ≤ 2048) := by
  decide

/-- C6 (amended): for inputs without a transposing EXIF orientation the
dimensions returned by processImage are the post-resize dimensions -
both bounded by the configured maxima, never exceeding the decoded
dimensions (withoutEnlargement), untouched exactly when neither decoded
dimension exceeds its configured maximum, and aspect-preserving up to
rounding (cross products differ by at most w + h). For transposing
orientations (tags 5-8) the resize decision still reads the pre-rotation
metadata while rotate() swaps the dimensions afterwards, so the bound
survives only when the two configured maxima are equal. -/
theorem c6_resize_dimensions_amended (cfg : Config) (w h o : Nat)
    (hw : 1 ≤ w) (hh : 1 ≤ h)
    (hmw : 1 ≤ cfg.maxImageWidth) (hmh : 1 ≤ cfg.maxImageHeight) :
    (orientationSwaps o = false →
      ((processImageDims cfg w h o).1 ≤ cfg.maxImageWidth ∧
       (processImageDims cfg w h o).2 ≤ cfg.maxImageHeight ∧
       (processImageDims cfg w h o).1 ≤ w ∧
       (processImageDims cfg w h o).2 ≤ h ∧
       ((w ≤ cfg.maxImageWidth ∧ h ≤ cfg.maxImageHeight) →
         processImageDims cfg w h o = (w, h)) ∧
       (processImageDims cfg w h o).1 * h
         ≤ (processImageDims cfg w h o).2 * w + (w + h) ∧
       (processImageDims cfg w h o).2 * w
         ≤ (processImageDims cfg w h o).1 * h + (w + h))) ∧
    (orientationSwaps o = true → cfg.maxImageWidth = cfg.maxImageHeight →
      ((processImageDims cfg w h o).1 ≤ cfg.maxImageWidth ∧
       (processImageDims cfg w h o).2 ≤ cfg.maxImageHeight)) := by
  constructor
  · intro hswap
    have hpd : processImageDims cfg w h o =
        if w > cfg.maxImageWidth ∨ h > cfg.maxImageHeight then
          resizeInside w h cfg.maxImageWidth cfg.maxImageHeight
        else (w, h) := by
      unfold processImageDims
      rw [hswap]
      split
      · rw [if_neg (by simp)]
      · rw [if_neg (by simp)]
    rw [hpd]
    by_cases hcase : w > cfg.maxImageWidth ∨ h > cfg.maxImageHeight
    · rw [if_pos hcase]
      obtain ⟨b1, b2, b3, b4, b5, b6⟩ :=
        resize_core_bounds cfg.maxImageWidth cfg.maxImageHeight w h hw hh hmw hmh hcase
      exact ⟨b1, b2, b3, b4, fun hcon => absurd hcon (by omega), b5, b6⟩
    · rw [if_neg hcase]
      push_neg at hcase
      refine ⟨hcase.1, hcase.2, le_refl _, le_refl _, fun _ => rfl, ?_, ?_⟩
      · nlinarith
      · nlinarith
  · intro hswap hsym
    have hpd : processImageDims cfg w h o =
        if w > cfg.maxImageWidth ∨ h > cfg.maxImageHeight then
          resizeInside h w cfg.maxImageWidth cfg.maxImageHeight
        else (h, w) := by
      unfold processImageDims
      rw [hswap]
      split
      · rw [if_pos rfl]
      · rw [if_pos rfl]
    rw [hpd]
    by_cases hcase : w > cfg.maxImageWidth ∨ h > cfg.maxImageHeight
    · rw [if_pos hcase]
      have hcase2 : h > cfg.maxImageWidth ∨ w > cfg.maxImageHeight := by omega
      obtain ⟨b1, b2, _, _, _, _⟩ :=
        resize_core_bounds cfg.maxImageWidth cfg.maxImageHeight h w hh hw hmw hmh hcase2
      exact ⟨b1, b2⟩
    · rw [if_neg hcase]
      push_neg at hcase
      constructor
      · show h ≤ cfg.maxImageWidth
        omega
      · show w ≤ cfg.maxImageHeight
        omega

/-- Witness for c6_resize_dimensions_amended: the spec scenario, a
6000x4000 decode with the identity orientation tag 1 against 4096x4096
maxima. -/
theorem c6_resize_dimensions_amended_witness :
    (orientationSwaps 1 = false ∧ (1 : Nat) ≤ 6000 ∧ (1 : Nat) ≤ 4000) ∧
    (processImageDims
        { maxStorageGB := 50, maxImageWidth := 4096, maxImageHeight := 4096 }
        6000 4000 1).1 ≤ 4096 ∧
    (processImageDims
        { maxStorageGB := 50, maxImageWidth := 4096, maxImageHeight := 4096 }
        6000 4000 1).2 ≤ 4096 :=
  ⟨⟨by decide, by decide, by decide⟩,
    ((c6_resize_dimensions_amended
      { maxStorageGB := 50, maxImageWidth := 4096, maxImageHeight := 4096 }
      6000 4000 1 (by decide) (by decide) (by decide) (by decide)).1 (by decide)).1,
    ((c6_resize_dimensions_amended
      { maxStorageGB := 50, maxImageWidth := 4096, maxImageHeight := 4096 }
      6000 4000 1 (by decide) (by decide) (by decide) (by decide)).1 (by decide)).2.1⟩

end ShareTheVows
